import Mathlib

/-
  Verification development for the TDGi5 test-data-generator repository.

  Part 1 embeds the frontend `ScheduleList` component, which exists in two
  variants in the repository (referred to below as V1 and V2).  Both share
  the same `Schedule` interface, filter state, fetch wiring and handlers;
  they differ in how the Type column and the action buttons are rendered.

  Part 2 models the generation scheduling engine (Schedule Store, Trigger
  Evaluator, Job Executor, Lifecycle Controller).  The engine's code is not
  part of this excerpt of the repository; those definitions are modelled
  from the specification's description of its contract, and each such
  definition says so in its doc comment.
-/

namespace TDGi5

/-! ### Wire enums

The `status` and `scheduleType` fields of the `Schedule` interface are
string-literal union types; we embed them as inductives together with the
exact wire spelling of each alternative. -/

/-- The four alternatives of the TypeScript union
`'ACTIVE' | 'PAUSED' | 'COMPLETED' | 'ERROR'`. -/
inductive ScheduleStatus where
  | ACTIVE
  | PAUSED
  | COMPLETED
  | ERROR
  deriving DecidableEq, Repr

/-- Wire spelling of a status, exactly as in the union type. -/
def ScheduleStatus.toWire : ScheduleStatus → String
  | .ACTIVE => "ACTIVE"
  | .PAUSED => "PAUSED"
  | .COMPLETED => "COMPLETED"
  | .ERROR => "ERROR"

/-- All statuses, in the order they appear in the union type. -/
def allStatuses : List ScheduleStatus :=
  [.ACTIVE, .PAUSED, .COMPLETED, .ERROR]

/-- The two alternatives of the TypeScript union `'ONE_TIME' | 'RECURRING'`. -/
inductive ScheduleType where
  | ONE_TIME
  | RECURRING
  deriving DecidableEq, Repr

/-- Wire spelling of a schedule type, exactly as in the union type. -/
def ScheduleType.toWire : ScheduleType → String
  | .ONE_TIME => "ONE_TIME"
  | .RECURRING => "RECURRING"

/-! ### The frontend `Schedule` interface

Both `ScheduleList` variants declare the same interface: `lastRunTime` and
`cronExpression` are optional (`?:`), the rest required.  Timestamps reach
the frontend as strings. -/

structure Schedule where
  id : String
  name : String
  templateId : String
  templateName : String
  status : ScheduleStatus
  scheduleType : ScheduleType
  nextRunTime : String
  lastRunTime : Option String
  cronExpression : Option String
  outputFormat : String
  rowCount : Nat
  deriving DecidableEq, Repr

/-! ### JavaScript truthiness

The component tests optional strings and numbers directly in conditions
(`schedule.cronExpression ? … : …`, `x || d`), so we embed JavaScript
truthiness explicitly: `undefined` and the empty string are falsy, every
other string is truthy; `0` is falsy, every other number truthy; an array
is always truthy, even when empty. -/

/-- Truthiness of an optional string value (`undefined` and `""` are falsy). -/
def jsTruthyOptStr : Option String → Bool
  | none => false
  | some s => decide (s ≠ "")

/-- JavaScript `x || d` on an optional number (`undefined` and `0` are falsy). -/
def jsOrNat : Option Nat → Nat → Nat
  | none, d => d
  | some n, d => if n = 0 then d else n

/-- JavaScript `x || d` on an optional array (an array is always truthy). -/
def jsOrList (o : Option (List Schedule)) (d : List Schedule) : List Schedule :=
  match o with
  | none => d
  | some l => l

/-! ### Status filter control

The status-filter `select` offers an all-statuses empty option followed by
one option per status; the option values below are copied character for
character from the component (both variants render the same options). -/

def statusFilterOptions : List String :=
  ["", "ACTIVE", "PAUSED", "COMPLETED", "ERROR"]

/-! ### Component state and handlers

The filter state of `ScheduleList`: `searchTerm`, `statusFilter`,
`currentPage`, `pageSize` (identical in both variants). -/

structure ListState where
  searchTerm : String
  statusFilter : String
  currentPage : Nat
  pageSize : Nat
  deriving DecidableEq, Repr

/-- `handleSearchChange`: sets the search term and resets to the first page. -/
def handleSearchChange (value : String) (s : ListState) : ListState :=
  { s with searchTerm := value, currentPage := 0 }

/-- `handleStatusFilterChange`: sets the status filter and resets to the
first page. -/
def handleStatusFilterChange (value : String) (s : ListState) : ListState :=
  { s with statusFilter := value, currentPage := 0 }

/-! ### Fetch parameters and the refresh effect -/

/-- The query-parameter object passed to `getSchedules`. -/
structure FetchParams where
  page : Nat
  size : Nat
  search : String
  status : String
  deriving DecidableEq, Repr

/-- The parameter object built at the `useEffect` fetch call site:
`\x7b page: currentPage, size: pageSize, search: searchTerm, status: statusFilter \x7d`. -/
def effectFetchParams (s : ListState) : FetchParams :=
  { page := s.currentPage, size := s.pageSize, search := s.searchTerm, status := s.statusFilter }

/-- The parameter object built at the refetch inside `handleActivate`. -/
def activateRefetchParams (s : ListState) : FetchParams :=
  { page := s.currentPage, size := s.pageSize, search := s.searchTerm, status := s.statusFilter }

/-- The parameter object built at the refetch inside `handlePause`. -/
def pauseRefetchParams (s : ListState) : FetchParams :=
  { page := s.currentPage, size := s.pageSize, search := s.searchTerm, status := s.statusFilter }

/-- The parameter object built at the refetch inside `handleDeleteConfirm`. -/
def deleteRefetchParams (s : ListState) : FetchParams :=
  { page := s.currentPage, size := s.pageSize, search := s.searchTerm, status := s.statusFilter }

/-- The dependency array of the refresh `useEffect`:
`[currentPage, pageSize, searchTerm, statusFilter, fetchSchedules]`
(`fetchSchedules` is a stable function identity, so only the four data
values decide whether the dependencies changed). -/
def effectDeps (s : ListState) : Nat × Nat × String × String :=
  (s.currentPage, s.pageSize, s.searchTerm, s.statusFilter)

/-- React re-runs the effect after a render exactly when some entry of the
dependency array differs from the previous render's. -/
def effectFires (prev cur : ListState) : Bool :=
  decide (effectDeps cur ≠ effectDeps prev)

/-! ### Paged response handling

`GET /schedules` answers with a page object; `schedulesData?.data` is
absent until the first response arrives, which we embed as
`Option SchedulePage`. -/

structure SchedulePage where
  content : List Schedule
  totalElements : Nat
  totalPages : Nat
  deriving DecidableEq, Repr

/-- `schedulesData?.data?.content || []` — the rows handed to the table. -/
def tableData (r : Option SchedulePage) : List Schedule :=
  jsOrList (Option.map SchedulePage.content r) []

/-- `schedulesData?.data?.totalPages || 1` — the page count handed to the
pagination control. -/
def shownTotalPages (r : Option SchedulePage) : Nat :=
  jsOrNat (Option.map SchedulePage.totalPages r) 1

/-- `schedulesData?.data?.totalElements || 0` — the item count handed to
the pagination control. -/
def shownTotalItems (r : Option SchedulePage) : Nat :=
  jsOrNat (Option.map SchedulePage.totalElements r) 0

/-! ### Cell renderers -/

/-- Type column of variant V1: branches on
`schedule.scheduleType === 'ONE_TIME'`. -/
def typeCellV1 (s : Schedule) : String :=
  if s.scheduleType = ScheduleType.ONE_TIME then "One-time" else "Recurring"

/-- Type column of variant V2: branches on the truthiness of
`schedule.cronExpression`. -/
def typeCellV2 (s : Schedule) : String :=
  if jsTruthyOptStr s.cronExpression then "Recurring" else "One-time"

/-- `formatDate`: returns `"N/A"` for a falsy (empty) string, otherwise
parses and localizes the date.  Parsing and localization
(`new Date(…).toLocaleString()`) are environment dependent, so they are
abstracted as the `render` parameter; the definition shows they are only
reached for a non-empty string. -/
def formatDate (render : String → String) (dateString : String) : String :=
  if dateString = "" then "N/A" else render dateString

/-- Last Run column:
`schedule.lastRunTime ? formatDate(schedule.lastRunTime) : 'Never'`. -/
def lastRunCell (render : String → String) (s : Schedule) : String :=
  if jsTruthyOptStr s.lastRunTime then
    formatDate render (s.lastRunTime.getD "")
  else "Never"

/-! ### Actions cell

Each row renders either a pause control (when the status is ACTIVE) or an
activate control (otherwise).  We record which control is rendered and its
`disabled` flag. -/

inductive ActionControl where
  | pauseControl
  | activateControl
  deriving DecidableEq, Repr

structure RenderedAction where
  control : ActionControl
  disabled : Bool
  isLoading : Bool
  deriving DecidableEq, Repr

/-- Actions cell of variant V1: the pause button is disabled while a pause
request is in flight; the activate button is disabled while an activate
request is in flight or the schedule is COMPLETED. -/
def actionsCellV1 (isActivating isPausing : Bool) (s : Schedule) : RenderedAction :=
  if s.status = ScheduleStatus.ACTIVE then
    { control := .pauseControl, disabled := isPausing, isLoading := false }
  else
    { control := .activateControl,
      disabled := isActivating || decide (s.status = ScheduleStatus.COMPLETED)
      isLoading := false }

/-- Actions cell of variant V2: the buttons carry `isLoading` rather than
`disabled` for in-flight requests; the activate button's `disabled` prop is
`schedule.status === 'COMPLETED'`. -/
def actionsCellV2 (isActivating isPausing : Bool) (s : Schedule) : RenderedAction :=
  if s.status = ScheduleStatus.ACTIVE then
    { control := .pauseControl, disabled := false, isLoading := isPausing }
  else
    { control := .activateControl,
      disabled := decide (s.status = ScheduleStatus.COMPLETED)
      isLoading := isActivating }

/-! ### The scheduling engine

The generation scheduling and job-execution engine is not part of this
excerpt of the repository; the definitions in this section are modelled
from the specification's description of its data model, lifecycle
operations, trigger evaluation and job execution. -/

/-- Modelled from the spec: the `CSV`, `JSON`, `XML` output formats of the
wire contract. -/
inductive OutputFormat where
  | CSV
  | JSON
  | XML
  deriving DecidableEq, Repr

/-- Wire spelling of an output format. -/
def OutputFormat.toWire : OutputFormat → String
  | .CSV => "CSV"
  | .JSON => "JSON"
  | .XML => "XML"

deriving instance DecidableEq for Except

/-- Modelled from the spec: the error taxonomy of the engine's API
(NotFound, ValidationError, InvalidState). -/
inductive ApiError where
  | NotFound
  | ValidationError
  | InvalidState
  deriving DecidableEq, Repr

/-- Modelled from the spec: the persisted Schedule entity of the engine,
with timestamps as natural numbers, the recorded error message, and the
in-flight claim marker that excludes a claimed row from subsequent
evaluator scans. -/
structure EngineSchedule where
  id : String
  name : String
  templateId : String
  scheduleType : ScheduleType
  nextRunTime : Nat
  cronExpression : Option String
  lastRunTime : Option Nat
  status : ScheduleStatus
  outputFormat : OutputFormat
  rowCount : Nat
  errorMessage : Option String
  inFlight : Bool
  deriving DecidableEq, Repr

/-- Split a character list into space-separated fields. -/
def splitFields : List Char → List (List Char)
  | [] => [[]]
  | ch :: rest =>
    if ch = ' ' then [] :: splitFields rest
    else
      match splitFields rest with
      | [] => [[ch]]
      | f :: fs => (ch :: f) :: fs

/-- Modelled from the spec: cron-expression validity.  The spec requires a
6-field cron-style expression; only the field count is modelled here, the
per-field grammar is not needed by any claim. -/
def validCron (c : String) : Bool :=
  decide ((splitFields c.data).length = 6)

/-- Modelled from the spec: recomputing `nextRunTime` from the cron
expression.  Computing the next cron occurrence is abstracted as the
`cronNext` parameter (`cronNext c now` is the next occurrence of `c`
strictly after `now`); a ONE_TIME schedule has no cron expression to
recompute from, so its `nextRunTime` is kept. -/
def recomputeNextRun (cronNext : String → Nat → Nat) (now : Nat)
    (s : EngineSchedule) : Nat :=
  match s.scheduleType, s.cronExpression with
  | ScheduleType.RECURRING, some c => cronNext c now
  | _, _ => s.nextRunTime

/-- Modelled from the spec: `activate(id)`.  PAUSED becomes ACTIVE,
recomputing `nextRunTime` if stale; ERROR becomes ACTIVE, clearing the
error and recomputing `nextRunTime`; activating an ACTIVE schedule is a
no-op; activating a COMPLETED schedule fails with InvalidState. -/
def activate (cronNext : String → Nat → Nat) (now : Nat)
    (s : EngineSchedule) : Except ApiError EngineSchedule :=
  match s.status with
  | ScheduleStatus.PAUSED =>
    Except.ok { s with
      status := ScheduleStatus.ACTIVE
      nextRunTime :=
        if s.nextRunTime < now then recomputeNextRun cronNext now s
        else s.nextRunTime }
  | ScheduleStatus.ERROR =>
    Except.ok { s with
      status := ScheduleStatus.ACTIVE
      errorMessage := none
      nextRunTime := recomputeNextRun cronNext now s }
  | ScheduleStatus.ACTIVE => Except.ok s
  | ScheduleStatus.COMPLETED => Except.error ApiError.InvalidState

/-- Modelled from the spec: `pause(id)`.  ACTIVE becomes PAUSED; pausing an
already-PAUSED schedule is an acceptable no-op; otherwise InvalidState. -/
def pause (s : EngineSchedule) : Except ApiError EngineSchedule :=
  match s.status with
  | ScheduleStatus.ACTIVE => Except.ok { s with status := ScheduleStatus.PAUSED }
  | ScheduleStatus.PAUSED => Except.ok s
  | _ => Except.error ApiError.InvalidState

/-- Modelled from the spec: the evaluator's due test — status ACTIVE,
`nextRunTime ≤ now`, and not already claimed in-flight. -/
def dueForDispatch (now : Nat) (s : EngineSchedule) : Bool :=
  decide (s.status = ScheduleStatus.ACTIVE) && decide (s.nextRunTime ≤ now)
    && !s.inFlight

/-- Modelled from the spec: the Job Executor's success path — record
`lastRunTime`, release the in-flight claim, and either complete (ONE_TIME)
or recompute the next occurrence and stay ACTIVE (RECURRING). -/
def executeSuccess (cronNext : String → Nat → Nat) (now : Nat)
    (s : EngineSchedule) : EngineSchedule :=
  match s.scheduleType with
  | ScheduleType.ONE_TIME =>
    { s with
      lastRunTime := some now
      status := ScheduleStatus.COMPLETED
      inFlight := false }
  | ScheduleType.RECURRING =>
    { s with
      lastRunTime := some now
      status := ScheduleStatus.ACTIVE
      nextRunTime := recomputeNextRun cronNext now s
      inFlight := false }

/-- Modelled from the spec: the Job Executor's failure path — set status
ERROR, record the message, release the claim, and leave `nextRunTime` and
`lastRunTime` unchanged. -/
def executeFailure (msg : String) (s : EngineSchedule) : EngineSchedule :=
  { s with
    status := ScheduleStatus.ERROR
    errorMessage := some msg
    inFlight := false }

/-- Modelled from the spec: the atomic events that can touch a schedule
row.  Lifecycle requests (`evActivate`, `evPause`), an evaluator scan's
claim step (`evClaim`), and the executor's outcome reports (`evComplete`,
`evFail`).  Each event carries the time at which it hits the store. -/
inductive EngineEvent where
  | evActivate (now : Nat)
  | evPause (now : Nat)
  | evClaim (now : Nat)
  | evComplete (now : Nat)
  | evFail (now : Nat) (msg : String)
  deriving DecidableEq, Repr

/-- The time at which an event hits the store. -/
def eventTime : EngineEvent → Nat
  | .evActivate now => now
  | .evPause now => now
  | .evClaim now => now
  | .evComplete now => now
  | .evFail now _ => now

/-- Events issued by the evaluator/executor pipeline alone (no lifecycle
requests); traces of these model concurrent evaluator scans. -/
def evaluatorEvent : EngineEvent → Bool
  | .evClaim _ => true
  | .evComplete _ => true
  | .evFail _ _ => true
  | _ => false

/-- Modelled from the spec: one atomic step on a schedule row.  A failed
lifecycle request leaves the row unchanged; a claim step atomically tests
the due condition and marks the row in-flight, emitting the dispatched
occurrence (identified by the row's `nextRunTime`); executor reports apply
only to a row that is actually in-flight. -/
def step (cronNext : String → Nat → Nat) (s : EngineSchedule) :
    EngineEvent → EngineSchedule × Option Nat
  | .evActivate now =>
    (match activate cronNext now s with
     | .ok s2 => s2
     | .error _ => s, none)
  | .evPause _ =>
    (match pause s with
     | .ok s2 => s2
     | .error _ => s, none)
  | .evClaim now =>
    if dueForDispatch now s then ({ s with inFlight := true }, some s.nextRunTime)
    else (s, none)
  | .evComplete now =>
    if s.inFlight then (executeSuccess cronNext now s, none) else (s, none)
  | .evFail _ msg =>
    if s.inFlight then (executeFailure msg s, none) else (s, none)

/-- Run a trace of atomic events against a schedule row, collecting the
dispatched occurrences in order. -/
def runEngine (cronNext : String → Nat → Nat) (s : EngineSchedule) :
    List EngineEvent → EngineSchedule × List Nat
  | [] => (s, [])
  | e :: es =>
    let r := step cronNext s e
    let rest := runEngine cronNext r.1 es
    (rest.1, (r.2.elim [] (fun d => [d])) ++ rest.2)

/-- A trace whose event times never decrease, starting no earlier than
`t0`.  Store timestamps are monotone: each atomic step hits the store at a
time at least that of the previous one. -/
def timesMonotone : Nat → List EngineEvent → Bool
  | _, [] => true
  | t0, e :: es => decide (t0 ≤ eventTime e) && timesMonotone (eventTime e) es

/-- Modelled from the spec: a draft submitted to `create`. -/
structure ScheduleDraft where
  name : String
  templateId : String
  scheduleType : ScheduleType
  nextRunTime : Option Nat
  cronExpression : Option String
  requestPaused : Bool
  outputFormat : OutputFormat
  rowCount : Nat
  deriving DecidableEq, Repr

/-- Modelled from the spec: `create(draft)`.  Validation rejects a missing
name or templateId, a non-positive rowCount, a missing `nextRunTime` for
ONE_TIME, and a missing or invalid `cronExpression` for RECURRING; the
created schedule is ACTIVE unless the draft requests PAUSED, carries a cron
expression exactly for RECURRING, and for RECURRING gets its `nextRunTime`
computed from the cron expression. -/
def createSchedule (cronNext : String → Nat → Nat) (now : Nat) (newId : String)
    (d : ScheduleDraft) : Except ApiError EngineSchedule :=
  if d.name = "" then Except.error ApiError.ValidationError
  else if d.templateId = "" then Except.error ApiError.ValidationError
  else if d.rowCount = 0 then Except.error ApiError.ValidationError
  else
    match d.scheduleType with
    | ScheduleType.ONE_TIME =>
      match d.nextRunTime with
      | none => Except.error ApiError.ValidationError
      | some t =>
        Except.ok
          { id := newId
            name := d.name
            templateId := d.templateId
            scheduleType := ScheduleType.ONE_TIME
            nextRunTime := t
            cronExpression := none
            lastRunTime := none
            status := if d.requestPaused then ScheduleStatus.PAUSED
                      else ScheduleStatus.ACTIVE
            outputFormat := d.outputFormat
            rowCount := d.rowCount
            errorMessage := none
            inFlight := false }
    | ScheduleType.RECURRING =>
      match d.cronExpression with
      | none => Except.error ApiError.ValidationError
      | some c =>
        if validCron c then
          Except.ok
            { id := newId
              name := d.name
              templateId := d.templateId
              scheduleType := ScheduleType.RECURRING
              nextRunTime := cronNext c now
              cronExpression := some c
              lastRunTime := none
              status := if d.requestPaused then ScheduleStatus.PAUSED
                        else ScheduleStatus.ACTIVE
              outputFormat := d.outputFormat
              rowCount := d.rowCount
              errorMessage := none
              inFlight := false }
        else Except.error ApiError.ValidationError

/-- Modelled from the spec: a patch submitted to `update`. -/
structure SchedulePatch where
  name : Option String
  scheduleType : Option ScheduleType
  nextRunTime : Option Nat
  cronExpression : Option String
  deriving DecidableEq, Repr

/-- Modelled from the spec: `update(id, patch)`.  Rejected with
InvalidState while the schedule is being executed; changing the schedule
type requires supplying the matching trigger field (`nextRunTime` for
ONE_TIME, a valid `cronExpression` for RECURRING) and the other trigger
field is cleared. -/
def updateSchedule (cronNext : String → Nat → Nat) (now : Nat)
    (s : EngineSchedule) (p : SchedulePatch) : Except ApiError EngineSchedule :=
  if s.inFlight then Except.error ApiError.InvalidState
  else
    match p.scheduleType.getD s.scheduleType with
    | ScheduleType.ONE_TIME =>
      match p.nextRunTime with
      | some t =>
        Except.ok { s with
          name := p.name.getD s.name
          scheduleType := ScheduleType.ONE_TIME
          nextRunTime := t
          cronExpression := none }
      | none =>
        if s.scheduleType = ScheduleType.ONE_TIME then
          Except.ok { s with name := p.name.getD s.name }
        else Except.error ApiError.ValidationError
    | ScheduleType.RECURRING =>
      match p.cronExpression with
      | some c =>
        if validCron c then
          Except.ok { s with
            name := p.name.getD s.name
            scheduleType := ScheduleType.RECURRING
            cronExpression := some c
            nextRunTime := cronNext c now }
        else Except.error ApiError.ValidationError
      | none =>
        if s.scheduleType = ScheduleType.RECURRING then
          Except.ok { s with name := p.name.getD s.name }
        else Except.error ApiError.ValidationError

/-- The data-model invariant relating the trigger fields: a cron expression
is present exactly for RECURRING schedules. -/
def cronIffRecurring (s : EngineSchedule) : Prop :=
  s.cronExpression.isSome = true ↔ s.scheduleType = ScheduleType.RECURRING

instance (s : EngineSchedule) : Decidable (cronIffRecurring s) := by
  unfold cronIffRecurring
  infer_instance

/-! ### Fixtures used by witnesses and counterexamples -/

/-- A COMPLETED row as the list renders it. -/
def completedRow : Schedule :=
  { id := "s1"
    name := "Done"
    templateId := "T1"
    templateName := "Template 1"
    status := ScheduleStatus.COMPLETED
    scheduleType := ScheduleType.ONE_TIME
    nextRunTime := "2025-01-01T00:00:00"
    lastRunTime := some "2025-01-01T00:00:00"
    cronExpression := none
    outputFormat := "CSV"
    rowCount := 10 }

/-- A row that has never run. -/
def neverRanRow : Schedule :=
  { id := "s2"
    name := "Fresh"
    templateId := "T1"
    templateName := "Template 1"
    status := ScheduleStatus.ACTIVE
    scheduleType := ScheduleType.ONE_TIME
    nextRunTime := "2025-01-01T00:00:00"
    lastRunTime := none
    cronExpression := none
    outputFormat := "CSV"
    rowCount := 10 }

/-- A RECURRING row whose cron expression is present but empty: its
`cronExpression` field is `some ""`, which JavaScript treats as falsy. -/
def emptyCronRow : Schedule :=
  { id := "s3"
    name := "Odd"
    templateId := "T1"
    templateName := "Template 1"
    status := ScheduleStatus.ACTIVE
    scheduleType := ScheduleType.RECURRING
    nextRunTime := "2025-01-01T00:00:00"
    lastRunTime := none
    cronExpression := some ""
    outputFormat := "CSV"
    rowCount := 10 }

/-- A RECURRING row with a non-empty cron expression. -/
def nightlyRow : Schedule :=
  { id := "s4"
    name := "Nightly"
    templateId := "T1"
    templateName := "Template 1"
    status := ScheduleStatus.ACTIVE
    scheduleType := ScheduleType.RECURRING
    nextRunTime := "2025-01-01T00:00:00"
    lastRunTime := none
    cronExpression := some "0 0 0 * * ?"
    outputFormat := "CSV"
    rowCount := 10 }

/-- The page object a backend returns for an empty result set: zero
elements and zero pages. -/
def emptyResultPage : SchedulePage :=
  { content := [], totalElements := 0, totalPages := 0 }

/-- A non-degenerate page object. -/
def smallPage : SchedulePage :=
  { content := [neverRanRow], totalElements := 1, totalPages := 2 }

/-! ### Claim theorems -/

/-- Claim C1: every status handled by the frontend is exactly one of the
wire strings `ACTIVE`, `PAUSED`, `COMPLETED`, `ERROR`, every schedule type
exactly one of `ONE_TIME`, `RECURRING`, and the status-filter control
offers the empty all-statuses value followed by exactly the four status
wire spellings, character for character. -/
theorem c1_wire_enums :
    (∀ s : ScheduleStatus, s.toWire = "ACTIVE" ∨ s.toWire = "PAUSED" ∨
      s.toWire = "COMPLETED" ∨ s.toWire = "ERROR") ∧
    (∀ t : ScheduleType, t.toWire = "ONE_TIME" ∨ t.toWire = "RECURRING") ∧
    statusFilterOptions = "" :: allStatuses.map ScheduleStatus.toWire := by
  refine ⟨fun s => ?_, fun t => ?_, rfl⟩
  · cases s <;> simp [ScheduleStatus.toWire]
  · cases t <;> simp [ScheduleType.toWire]

/-- Claim C9: changing the search term and changing the status filter both
reset the current page to 0. -/
theorem c9_filters_reset_page :
    ∀ (value : String) (s : ListState),
      (handleSearchChange value s).currentPage = 0 ∧
      (handleStatusFilterChange value s).currentPage = 0 :=
  fun _ _ => ⟨rfl, rfl⟩

/-- Claim C5: every fetch of the schedule list — the refresh effect and the
refetches after activate, pause and delete — passes exactly the four filter
parameters page, size, search and status taken from the current state, and
the refresh effect re-fires whenever any of the four values changes,
because all four sit in its dependency array. -/
theorem c5_fetch_params_and_refetch :
    (∀ s : ListState,
      effectFetchParams s =
        { page := s.currentPage, size := s.pageSize,
          search := s.searchTerm, status := s.statusFilter } ∧
      activateRefetchParams s = effectFetchParams s ∧
      pauseRefetchParams s = effectFetchParams s ∧
      deleteRefetchParams s = effectFetchParams s) ∧
    (∀ prev cur : ListState,
      (cur.currentPage ≠ prev.currentPage ∨ cur.pageSize ≠ prev.pageSize ∨
        cur.searchTerm ≠ prev.searchTerm ∨ cur.statusFilter ≠ prev.statusFilter) →
      effectFires prev cur = true) := by
  constructor
  · intro s; exact ⟨rfl, rfl, rfl, rfl⟩
  · intro prev cur h
    have hne : effectDeps cur ≠ effectDeps prev := by
      intro he
      simp only [effectDeps, Prod.mk.injEq] at he
      rcases h with h | h | h | h
      · exact h he.1
      · exact h he.2.1
      · exact h he.2.2.1
      · exact h he.2.2.2
    exact decide_eq_true hne

/-- Witness for C5 at a concrete pair of states differing in the page. -/
theorem c5_fetch_params_and_refetch_witness :
    effectFires
      { searchTerm := "", statusFilter := "", currentPage := 0, pageSize := 10 }
      { searchTerm := "", statusFilter := "", currentPage := 1, pageSize := 10 } = true :=
  c5_fetch_params_and_refetch.2
    { searchTerm := "", statusFilter := "", currentPage := 0, pageSize := 10 }
    { searchTerm := "", statusFilter := "", currentPage := 1, pageSize := 10 }
    (Or.inl (by decide))

/-- Claim C10: a missing `lastRunTime` renders as the literal string
`Never`, the empty string handed to `formatDate` renders as `N/A`, and the
`Never` path is independent of the date-rendering function, so an absent
run time never reaches `Date` parsing. -/
theorem c10_last_run_rendering :
    ∀ (render : String → String) (s : Schedule),
      (s.lastRunTime = none → lastRunCell render s = "Never") ∧
      formatDate render "" = "N/A" ∧
      (s.lastRunTime = none →
        ∀ render2 : String → String, lastRunCell render s = lastRunCell render2 s) := by
  intro render s
  refine ⟨?_, rfl, ?_⟩
  · intro h; simp [lastRunCell, jsTruthyOptStr, h]
  · intro h render2; simp [lastRunCell, jsTruthyOptStr, h]

/-- Witness for C10 at a concrete never-run row. -/
theorem c10_last_run_rendering_witness :
    lastRunCell (fun x => x) neverRanRow = "Never" ∧
    formatDate (fun x => x) "" = "N/A" :=
  ⟨(c10_last_run_rendering (fun x => x) neverRanRow).1 rfl,
    (c10_last_run_rendering (fun x => x) neverRanRow).2.1⟩

/-- Claim C2: activating a COMPLETED schedule fails with InvalidState and
leaves the row unchanged in the store, and in both list variants a
COMPLETED row renders the activate control with `disabled` set, so the UI
cannot issue an activate request for it. -/
theorem c2_completed_activate :
    ∀ (cronNext : String → Nat → Nat) (now : Nat) (s : EngineSchedule),
      s.status = ScheduleStatus.COMPLETED →
      activate cronNext now s = Except.error ApiError.InvalidState ∧
      (step cronNext s (EngineEvent.evActivate now)).1 = s ∧
      ∀ (isActivating isPausing : Bool) (row : Schedule),
        row.status = ScheduleStatus.COMPLETED →
        (actionsCellV1 isActivating isPausing row).control = ActionControl.activateControl ∧
        (actionsCellV1 isActivating isPausing row).disabled = true ∧
        (actionsCellV2 isActivating isPausing row).control = ActionControl.activateControl ∧
        (actionsCellV2 isActivating isPausing row).disabled = true := by
  intro cronNext now s hs
  have hact : activate cronNext now s = Except.error ApiError.InvalidState := by
    simp [activate, hs]
  refine ⟨hact, ?_, ?_⟩
  · simp [step, hact]
  · intro ia ip row hrow
    refine ⟨?_, ?_, ?_, ?_⟩ <;> simp [actionsCellV1, actionsCellV2, hrow]

/-- Witness for C2 at a concrete COMPLETED engine row and list row. -/
theorem c2_completed_activate_witness :
    activate (fun _ t => t + 1) 7
      { id := "e1", name := "Done", templateId := "T1",
        scheduleType := ScheduleType.ONE_TIME, nextRunTime := 5,
        cronExpression := none, lastRunTime := some 5,
        status := ScheduleStatus.COMPLETED, outputFormat := OutputFormat.CSV,
        rowCount := 10, errorMessage := none, inFlight := false }
      = Except.error ApiError.InvalidState ∧
    (actionsCellV1 false false completedRow).disabled = true ∧
    (actionsCellV2 false false completedRow).disabled = true :=
  ⟨(c2_completed_activate (fun _ t => t + 1) 7
      { id := "e1", name := "Done", templateId := "T1",
        scheduleType := ScheduleType.ONE_TIME, nextRunTime := 5,
        cronExpression := none, lastRunTime := some 5,
        status := ScheduleStatus.COMPLETED, outputFormat := OutputFormat.CSV,
        rowCount := 10, errorMessage := none, inFlight := false } rfl).1,
    ((c2_completed_activate (fun _ t => t + 1) 7
      { id := "e1", name := "Done", templateId := "T1",
        scheduleType := ScheduleType.ONE_TIME, nextRunTime := 5,
        cronExpression := none, lastRunTime := some 5,
        status := ScheduleStatus.COMPLETED, outputFormat := OutputFormat.CSV,
        rowCount := 10, errorMessage := none, inFlight := false } rfl).2.2
      false false completedRow rfl).2.1,
    ((c2_completed_activate (fun _ t => t + 1) 7
      { id := "e1", name := "Done", templateId := "T1",
        scheduleType := ScheduleType.ONE_TIME, nextRunTime := 5,
        cronExpression := none, lastRunTime := some 5,
        status := ScheduleStatus.COMPLETED, outputFormat := OutputFormat.CSV,
        rowCount := 10, errorMessage := none, inFlight := false } rfl).2.2
      false false completedRow rfl).2.2.2⟩

/-- Claim C8 as stated is false: at the RECURRING row whose cron expression
is present but empty, presence of `cronExpression` matches the schedule
type, yet variant V1 renders `Recurring` while variant V2, which branches
on JavaScript truthiness rather than presence, renders `One-time`. -/
theorem c8_type_cells_cex :
    (emptyCronRow.cronExpression.isSome = true ↔
      emptyCronRow.scheduleType = ScheduleType.RECURRING) ∧
    typeCellV1 emptyCronRow ≠ typeCellV2 emptyCronRow := by
  constructor
  · constructor <;> intro _ <;> rfl
  · decide

/-- Claim C8, amended: for every schedule in which a non-empty
`cronExpression` is present exactly when the schedule type is RECURRING
(equivalently, whose `cronExpression` is truthy exactly for RECURRING), the
two Type-cell implementations agree. -/
theorem c8_type_cells_amended :
    ∀ s : Schedule,
      (jsTruthyOptStr s.cronExpression = true ↔
        s.scheduleType = ScheduleType.RECURRING) →
      typeCellV1 s = typeCellV2 s := by
  intro s h
  cases ht : s.scheduleType with
  | ONE_TIME =>
    have hf : jsTruthyOptStr s.cronExpression = false := by
      cases hb : jsTruthyOptStr s.cronExpression
      · rfl
      · exact absurd (ht.symm.trans (h.mp hb)) (by decide)
    simp [typeCellV1, typeCellV2, ht, hf]
  | RECURRING =>
    have hTrue : jsTruthyOptStr s.cronExpression = true := h.mpr ht
    simp [typeCellV1, typeCellV2, ht, hTrue]

/-- Witness for the amended C8 at a well-formed recurring row. -/
theorem c8_type_cells_amended_witness :
    typeCellV1 nightlyRow = typeCellV2 nightlyRow :=
  c8_type_cells_amended nightlyRow (by decide)

/-- Claim C4 as stated is false at the empty-result page: the response data
is present with `totalPages = 0`, yet the pagination shows 1 rather than
the response's `totalPages`, because `totalPages || 1` also falls back on
the falsy value 0. -/
theorem c4_pagination_cex :
    shownTotalPages (some emptyResultPage) = 1 ∧ emptyResultPage.totalPages = 0 := by
  constructor <;> rfl

/-- Claim C4, amended: the table renders exactly the content array of the
page response, the pagination shows exactly `totalElements`, and it shows
`totalPages` whenever that is non-zero; when the response data is absent
the three fall back to the empty list, 1 and 0 respectively, and a present
`totalPages` of 0 also falls back to 1. -/
theorem c4_page_rendering_amended :
    ∀ r : Option SchedulePage,
      (r = none → tableData r = [] ∧ shownTotalPages r = 1 ∧ shownTotalItems r = 0) ∧
      (∀ p : SchedulePage, r = some p →
        tableData r = p.content ∧
        shownTotalItems r = p.totalElements ∧
        (p.totalPages ≠ 0 → shownTotalPages r = p.totalPages) ∧
        (p.totalPages = 0 → shownTotalPages r = 1)) := by
  intro r
  constructor
  · intro h; subst h; exact ⟨rfl, rfl, rfl⟩
  · intro p h; subst h
    refine ⟨rfl, ?_, ?_, ?_⟩
    · by_cases hte : p.totalElements = 0 <;>
        simp [shownTotalItems, jsOrNat, hte]
    · intro hp; simp [shownTotalPages, jsOrNat, hp]
    · intro hp; simp [shownTotalPages, jsOrNat, hp]

/-- Witness for the amended C4 at an absent response and a concrete page. -/
theorem c4_page_rendering_amended_witness :
    tableData none = [] ∧ shownTotalPages (some smallPage) = smallPage.totalPages :=
  ⟨((c4_page_rendering_amended none).1 rfl).1,
    ((c4_page_rendering_amended (some smallPage)).2 smallPage rfl).2.2.1 (by decide)⟩

/-! ### Engine invariants -/

/-- No atomic step changes the schedule type or the cron expression: the
evaluator and executor only touch run state, and failed lifecycle requests
leave the row unchanged. -/
theorem step_trigger_fields (cronNext : String → Nat → Nat)
    (s : EngineSchedule) (e : EngineEvent) :
    (step cronNext s e).1.scheduleType = s.scheduleType ∧
    (step cronNext s e).1.cronExpression = s.cronExpression := by
  cases e with
  | evActivate now =>
    cases hstat : s.status <;> simp [step, activate, hstat]
  | evPause now =>
    cases hstat : s.status <;> simp [step, pause, hstat]
  | evClaim now =>
    by_cases hd : dueForDispatch now s = true <;> simp [step, hd]
  | evComplete now =>
    by_cases hf : s.inFlight = true
    · cases hty : s.scheduleType <;> simp [step, hf, executeSuccess, hty]
    · simp [step, hf]
  | evFail now msg =>
    by_cases hf : s.inFlight = true <;> simp [step, hf, executeFailure]

/-- A draft the Lifecycle Controller accepts, as in the spec's creation
scenario. -/
def nightlyDraft : ScheduleDraft :=
  { name := "Nightly"
    templateId := "T1"
    scheduleType := ScheduleType.RECURRING
    nextRunTime := none
    cronExpression := some "0 0 0 * * ?"
    requestPaused := false
    outputFormat := OutputFormat.CSV
    rowCount := 100 }

/-- Claim C3: a cron expression is present exactly for RECURRING schedules
— every schedule the Lifecycle Controller creates satisfies the invariant,
every accepted update preserves it, and no atomic evaluator, executor or
lifecycle step disturbs it. -/
theorem c3_cron_iff_recurring :
    (∀ (cronNext : String → Nat → Nat) (now : Nat) (newId : String)
        (d : ScheduleDraft) (s : EngineSchedule),
      createSchedule cronNext now newId d = Except.ok s → cronIffRecurring s) ∧
    (∀ (cronNext : String → Nat → Nat) (now : Nat) (s : EngineSchedule)
        (p : SchedulePatch) (s2 : EngineSchedule),
      cronIffRecurring s → updateSchedule cronNext now s p = Except.ok s2 →
      cronIffRecurring s2) ∧
    (∀ (cronNext : String → Nat → Nat) (s : EngineSchedule) (e : EngineEvent),
      cronIffRecurring s → cronIffRecurring (step cronNext s e).1) := by
  refine ⟨?_, ?_, ?_⟩
  · intro cronNext now newId d s h
    unfold createSchedule at h
    split at h
    · exact Except.noConfusion h
    split at h
    · exact Except.noConfusion h
    split at h
    · exact Except.noConfusion h
    split at h
    · -- ONE_TIME draft
      split at h
      · exact Except.noConfusion h
      · injection h with h
        subst h
        simp [cronIffRecurring]
    · -- RECURRING draft
      split at h
      · exact Except.noConfusion h
      · split at h
        · injection h with h
          subst h
          simp [cronIffRecurring]
        · exact Except.noConfusion h
  · intro cronNext now s p s2 hinv h
    unfold updateSchedule at h
    split at h
    · exact Except.noConfusion h
    split at h
    · -- patched type ONE_TIME
      split at h
      · injection h with h
        subst h
        simp [cronIffRecurring]
      · split at h
        · injection h with h
          subst h
          simpa [cronIffRecurring] using hinv
        · exact Except.noConfusion h
    · -- patched type RECURRING
      split at h
      · split at h
        · injection h with h
          subst h
          simp [cronIffRecurring]
        · exact Except.noConfusion h
      · split at h
        · injection h with h
          subst h
          simpa [cronIffRecurring] using hinv
        · exact Except.noConfusion h
  · intro cronNext s e hinv
    have h := step_trigger_fields cronNext s e
    unfold cronIffRecurring at hinv ⊢
    rw [h.1, h.2]
    exact hinv

/-- Witness for C3: the spec's Nightly creation scenario yields a schedule
satisfying the invariant. -/
theorem c3_cron_iff_recurring_witness :
    cronIffRecurring
      { id := "id1"
        name := "Nightly"
        templateId := "T1"
        scheduleType := ScheduleType.RECURRING
        nextRunTime := 1
        cronExpression := some "0 0 0 * * ?"
        lastRunTime := none
        status := ScheduleStatus.ACTIVE
        outputFormat := OutputFormat.CSV
        rowCount := 100
        errorMessage := none
        inFlight := false } :=
  c3_cron_iff_recurring.1 (fun _ t => t + 1) 0 "id1" nightlyDraft _ (by decide)

/-- One atomic step leaves a COMPLETED, not-in-flight ONE_TIME row exactly
as it is and dispatches nothing: activate and pause fail with InvalidState,
the due test requires ACTIVE, and executor reports require the in-flight
claim. -/
theorem step_completed_one_time (cronNext : String → Nat → Nat)
    (s : EngineSchedule) (e : EngineEvent)
    (hst : s.status = ScheduleStatus.COMPLETED)
    (hfl : s.inFlight = false) :
    (step cronNext s e).1 = s ∧ (step cronNext s e).2 = none := by
  cases e with
  | evActivate now => simp [step, activate, hst]
  | evPause now => simp [step, pause, hst]
  | evClaim now => simp [step, dueForDispatch, hst]
  | evComplete now => simp [step, hfl]
  | evFail now msg => simp [step, hfl]

/-- A whole trace of atomic steps leaves a COMPLETED, not-in-flight row
unchanged and dispatches nothing. -/
theorem runEngine_completed (cronNext : String → Nat → Nat)
    (trace : List EngineEvent) (s : EngineSchedule)
    (hst : s.status = ScheduleStatus.COMPLETED)
    (hfl : s.inFlight = false) :
    (runEngine cronNext s trace).1 = s ∧ (runEngine cronNext s trace).2 = [] := by
  induction trace with
  | nil => exact ⟨rfl, rfl⟩
  | cons e es ih =>
    have h := step_completed_one_time cronNext s e hst hfl
    simpa [runEngine, h.1, h.2] using ih

/-- Claim C6: completing the single successful execution of an in-flight
ONE_TIME schedule sets its status to COMPLETED and releases the claim, and
from then on — for any ONE_TIME schedule that is COMPLETED and not claimed
— every trace of atomic events leaves the status COMPLETED and dispatches
no further occurrence for that row. -/
theorem c6_one_time_completed_terminal :
    ∀ (cronNext : String → Nat → Nat) (now : Nat) (s : EngineSchedule),
      s.scheduleType = ScheduleType.ONE_TIME →
      s.inFlight = true →
      ((step cronNext s (EngineEvent.evComplete now)).1.status = ScheduleStatus.COMPLETED ∧
        (step cronNext s (EngineEvent.evComplete now)).1.inFlight = false ∧
        (step cronNext s (EngineEvent.evComplete now)).1.scheduleType = ScheduleType.ONE_TIME) ∧
      (∀ (s2 : EngineSchedule) (trace : List EngineEvent),
        s2.scheduleType = ScheduleType.ONE_TIME →
        s2.status = ScheduleStatus.COMPLETED → s2.inFlight = false →
        (runEngine cronNext s2 trace).1.status = ScheduleStatus.COMPLETED ∧
        (runEngine cronNext s2 trace).2 = []) := by
  intro cronNext now s hty hfl
  constructor
  · refine ⟨?_, ?_, ?_⟩ <;> simp [step, hfl, executeSuccess, hty]
  · intro s2 trace hty2 hst2 hfl2
    have h := runEngine_completed cronNext trace s2 hst2 hfl2
    exact ⟨by rw [h.1]; exact hst2, h.2⟩

/-- Witness for C6 at a concrete claimed ONE_TIME row. -/
theorem c6_one_time_completed_terminal_witness :
    (step (fun _ t => t + 1)
      { id := "e2", name := "Once", templateId := "T1",
        scheduleType := ScheduleType.ONE_TIME, nextRunTime := 5,
        cronExpression := none, lastRunTime := none,
        status := ScheduleStatus.ACTIVE, outputFormat := OutputFormat.CSV,
        rowCount := 10, errorMessage := none, inFlight := true }
      (EngineEvent.evComplete 6)).1.status = ScheduleStatus.COMPLETED :=
  ((c6_one_time_completed_terminal (fun _ t => t + 1) 6
    { id := "e2", name := "Once", templateId := "T1",
      scheduleType := ScheduleType.ONE_TIME, nextRunTime := 5,
      cronExpression := none, lastRunTime := none,
      status := ScheduleStatus.ACTIVE, outputFormat := OutputFormat.CSV,
      rowCount := 10, errorMessage := none, inFlight := true } rfl rfl).1).1

/-! ### No double dispatch

The spec's idempotent-dispatch property: concurrent evaluator instances
interleave their atomic claim steps and the executor's reports on the
shared schedule row; we show no occurrence (identified by the row's
`nextRunTime` at claim time) is ever dispatched twice.  The invariant
tracks the occurrences dispatched so far. -/

/-- Occurrence-tracking invariant: the occurrences dispatched so far are
pairwise distinct and lie in the past, an occurrence equal to the row's
current `nextRunTime` can only have been dispatched while the row is still
claimed in-flight or has left the ACTIVE pool (COMPLETED or ERROR), and a
RECURRING row carries its cron expression. -/
def occInv (s : EngineSchedule) (tau : Nat) (dispatched : List Nat) : Prop :=
  dispatched.Nodup ∧
  (∀ t ∈ dispatched, t ≤ tau) ∧
  (∀ t ∈ dispatched, t < s.nextRunTime ∨
    (t = s.nextRunTime ∧ (s.inFlight = true ∨
      s.status = ScheduleStatus.COMPLETED ∨ s.status = ScheduleStatus.ERROR))) ∧
  (s.scheduleType = ScheduleType.RECURRING → s.cronExpression ≠ none)

/-- The invariant is stable under letting time pass. -/
theorem occInv_mono (s : EngineSchedule) (tau now : Nat) (D : List Nat)
    (h : tau ≤ now) (hinv : occInv s tau D) : occInv s now D :=
  ⟨hinv.1, fun t ht => le_trans (hinv.2.1 t ht) h, hinv.2.2.1, hinv.2.2.2⟩

/-- One atomic evaluator or executor step preserves the occurrence
invariant, extending the dispatched list with the step's dispatch if any:
the claim step is the only one that dispatches, and it can only fire on an
unclaimed ACTIVE row, which the invariant shows has never dispatched its
current `nextRunTime`. -/
theorem occInv_step (cronNext : String → Nat → Nat)
    (hcron : ∀ c t, t < cronNext c t)
    (s : EngineSchedule) (e : EngineEvent) (tau : Nat) (D : List Nat)
    (hev : evaluatorEvent e = true)
    (htime : tau ≤ eventTime e)
    (hinv : occInv s tau D) :
    occInv (step cronNext s e).1 (eventTime e)
      (D ++ ((step cronNext s e).2.elim [] (fun d => [d]))) := by
  obtain ⟨hnd, hpast, hocc, hwf⟩ := hinv
  cases e with
  | evActivate now => exact absurd hev (by simp [evaluatorEvent])
  | evPause now => exact absurd hev (by simp [evaluatorEvent])
  | evClaim now =>
    simp only [eventTime] at htime ⊢
    by_cases hd : dueForDispatch now s = true
    · have hd2 := hd
      simp only [dueForDispatch, Bool.and_eq_true, decide_eq_true_eq,
        Bool.not_eq_true'] at hd2
      obtain ⟨⟨hact, hle⟩, hnf⟩ := hd2
      have hstep1 : (step cronNext s (EngineEvent.evClaim now)).1 =
          { s with inFlight := true } := by
        simp [step, hd]
      have hstep2 : (step cronNext s (EngineEvent.evClaim now)).2 =
          some s.nextRunTime := by
        simp [step, hd]
      rw [hstep1, hstep2]
      have hfresh : s.nextRunTime ∉ D := by
        intro hmem
        rcases hocc _ hmem with hlt | ⟨_, hj | hj | hj⟩
        · exact Nat.lt_irrefl _ hlt
        · rw [hnf] at hj; exact Bool.noConfusion hj
        · rw [hact] at hj; exact ScheduleStatus.noConfusion hj
        · rw [hact] at hj; exact ScheduleStatus.noConfusion hj
      refine ⟨?_, ?_, ?_, ?_⟩
      · simp [List.nodup_append, hnd, hfresh]
      · intro t ht
        rcases List.mem_append.mp ht with h1 | h1
        · exact le_trans (hpast t h1) htime
        · simp only [Option.elim, List.mem_singleton] at h1
          subst h1; exact hle
      · intro t ht
        rcases List.mem_append.mp ht with h1 | h1
        · rcases hocc t h1 with hlt | ⟨heq2, _⟩
          · exact Or.inl hlt
          · exact Or.inr ⟨heq2, Or.inl rfl⟩
        · simp only [Option.elim, List.mem_singleton] at h1
          subst h1; exact Or.inr ⟨rfl, Or.inl rfl⟩
      · intro hty; exact hwf hty
    · have hstep1 : (step cronNext s (EngineEvent.evClaim now)).1 = s := by
        simp [step, hd]
      have hstep2 : (step cronNext s (EngineEvent.evClaim now)).2 = none := by
        simp [step, hd]
      rw [hstep1, hstep2]
      simpa using occInv_mono s tau now D htime ⟨hnd, hpast, hocc, hwf⟩
  | evComplete now =>
    simp only [eventTime] at htime ⊢
    by_cases hf : s.inFlight = true
    · have hstep1 : (step cronNext s (EngineEvent.evComplete now)).1 =
          executeSuccess cronNext now s := by
        simp [step, hf]
      have hstep2 : (step cronNext s (EngineEvent.evComplete now)).2 = none := by
        simp [step, hf]
      rw [hstep1, hstep2]
      cases hty : s.scheduleType with
      | ONE_TIME =>
        have hes : executeSuccess cronNext now s =
            { s with
              lastRunTime := some now
              status := ScheduleStatus.COMPLETED
              inFlight := false } := by
          simp [executeSuccess, hty]
        rw [hes]
        simp only [Option.elim, List.append_nil]
        refine ⟨hnd, fun t ht => le_trans (hpast t ht) htime, ?_, ?_⟩
        · intro t ht
          rcases hocc t ht with hlt | ⟨heq2, _⟩
          · exact Or.inl hlt
          · exact Or.inr ⟨heq2, Or.inr (Or.inl rfl)⟩
        · intro hty2; exact hwf hty2
      | RECURRING =>
        obtain ⟨c, hc⟩ : ∃ c, s.cronExpression = some c := by
          cases hce : s.cronExpression with
          | none => exact absurd hce (hwf hty)
          | some c => exact ⟨c, rfl⟩
        have hes : executeSuccess cronNext now s =
            { s with
              lastRunTime := some now
              status := ScheduleStatus.ACTIVE
              nextRunTime := cronNext c now
              inFlight := false } := by
          simp [executeSuccess, hty, recomputeNextRun, hc]
        rw [hes]
        simp only [Option.elim, List.append_nil]
        refine ⟨hnd, fun t ht => le_trans (hpast t ht) htime, ?_, ?_⟩
        · intro t ht
          exact Or.inl (lt_of_le_of_lt (le_trans (hpast t ht) htime) (hcron c now))
        · intro hty2; exact hwf hty2
    · have hstep1 : (step cronNext s (EngineEvent.evComplete now)).1 = s := by
        simp [step, hf]
      have hstep2 : (step cronNext s (EngineEvent.evComplete now)).2 = none := by
        simp [step, hf]
      rw [hstep1, hstep2]
      simpa using occInv_mono s tau now D htime ⟨hnd, hpast, hocc, hwf⟩
  | evFail now msg =>
    simp only [eventTime] at htime ⊢
    by_cases hf : s.inFlight = true
    · have hstep1 : (step cronNext s (EngineEvent.evFail now msg)).1 =
          executeFailure msg s := by
        simp [step, hf]
      have hstep2 : (step cronNext s (EngineEvent.evFail now msg)).2 = none := by
        simp [step, hf]
      rw [hstep1, hstep2]
      simp only [Option.elim, List.append_nil, executeFailure]
      refine ⟨hnd, fun t ht => le_trans (hpast t ht) htime, ?_, ?_⟩
      · intro t ht
        rcases hocc t ht with hlt | ⟨heq2, _⟩
        · exact Or.inl hlt
        · exact Or.inr ⟨heq2, Or.inr (Or.inr rfl)⟩
      · intro hty2; exact hwf hty2
    · have hstep1 : (step cronNext s (EngineEvent.evFail now msg)).1 = s := by
        simp [step, hf]
      have hstep2 : (step cronNext s (EngineEvent.evFail now msg)).2 = none := by
        simp [step, hf]
      rw [hstep1, hstep2]
      simpa using occInv_mono s tau now D htime ⟨hnd, hpast, hocc, hwf⟩

/-- Along any time-monotone trace of evaluator and executor events, the
already-dispatched occurrences together with all future dispatches stay
pairwise distinct. -/
theorem runEngine_dispatch_nodup (cronNext : String → Nat → Nat)
    (hcron : ∀ c t, t < cronNext c t) :
    ∀ (trace : List EngineEvent) (s : EngineSchedule) (tau : Nat) (D : List Nat),
      (∀ e ∈ trace, evaluatorEvent e = true) →
      timesMonotone tau trace = true →
      occInv s tau D →
      (D ++ (runEngine cronNext s trace).2).Nodup := by
  intro trace
  induction trace with
  | nil =>
    intro s tau D _ _ hinv
    simpa [runEngine] using hinv.1
  | cons e es ih =>
    intro s tau D hev hmono hinv
    have hev1 : evaluatorEvent e = true := hev e (List.mem_cons_self e es)
    have hevs : ∀ x ∈ es, evaluatorEvent x = true :=
      fun x hx => hev x (List.mem_cons_of_mem e hx)
    simp only [timesMonotone, Bool.and_eq_true, decide_eq_true_eq] at hmono
    have hinv2 := occInv_step cronNext hcron s e tau D hev1 hmono.1 hinv
    have hres := ih (step cronNext s e).1 (eventTime e)
      (D ++ ((step cronNext s e).2.elim [] (fun d => [d]))) hevs hmono.2 hinv2
    simpa [runEngine, List.append_assoc] using hres

/-- Claim C7: under concurrent evaluator scans — any time-monotone
interleaving of atomic claim steps and executor reports from any number of
evaluator instances against the shared schedule row — no occurrence is
dispatched twice: the claim/lock step hands each due occurrence to the Job
Executor exactly once.  `cronNext` computes the next cron occurrence
strictly after its time argument, and a RECURRING row carries its cron
expression. -/
theorem c7_no_double_dispatch :
    ∀ (cronNext : String → Nat → Nat),
      (∀ c t, t < cronNext c t) →
      ∀ (s : EngineSchedule) (t0 : Nat) (trace : List EngineEvent),
        (s.scheduleType = ScheduleType.RECURRING → s.cronExpression ≠ none) →
        (∀ e ∈ trace, evaluatorEvent e = true) →
        timesMonotone t0 trace = true →
        (runEngine cronNext s trace).2.Nodup := by
  intro cronNext hcron s t0 trace hwf hev hmono
  have h := runEngine_dispatch_nodup cronNext hcron trace s t0 []
    hev hmono ⟨List.nodup_nil, by simp, by simp, hwf⟩
  simpa using h

/-- Witness for C7: two racing claim attempts at the same occurrence, a
completion, and a later claim on a concrete recurring row dispatch two
distinct occurrences, never the same one twice. -/
theorem c7_no_double_dispatch_witness :
    (runEngine (fun _ t => t + 1)
      { id := "e3", name := "Hourly", templateId := "T1",
        scheduleType := ScheduleType.RECURRING, nextRunTime := 5,
        cronExpression := some "0 0 * * * ?", lastRunTime := none,
        status := ScheduleStatus.ACTIVE, outputFormat := OutputFormat.CSV,
        rowCount := 10, errorMessage := none, inFlight := false }
      [EngineEvent.evClaim 5, EngineEvent.evClaim 5, EngineEvent.evComplete 6,
        EngineEvent.evClaim 8]).2.Nodup :=
  c7_no_double_dispatch (fun _ t => t + 1) (fun _ t => Nat.lt_succ_self t) _ 0 _
    (by decide) (by decide) (by decide)

end TDGi5
